import Mathlib

/-!
# irq-eventfd: binding device interrupt vectors to eventfds

A shallow embedding of `irq_eventfd.c` / `irq_eventfd.h`.

* Pointers are natural numbers, `0` is `NULL`.
* Every `struct irqefd_devdata` lives in caller-owned memory; the registry
  only links it.  The state is therefore the list of linked nodes (their
  addresses, in list order from the head) plus the memory holding the structs.
* An access to `ctx[eidx]` outside the allocated array, or through a `NULL`
  `ctx`, is undefined behaviour of the C program: the embedding returns `none`.
* The list of addresses stands for a proper doubly linked list.  Registering
  a devdata that is already linked, or unregistering one that is not, leaves
  that representation; those two cases are `none` as well and every statement
  about registration or unregistration excludes them by a hypothesis.
* Calls into the kernel (`fget`, `eventfd_ctx_fdget`, `eventfd_ctx_put`,
  `copy_to_user`, `kzalloc`) are parameters or recorded effects.  The request
  record is the kernel copy `argp` as `copy_from_user` left it (its result is
  discarded by the code).
* All failure paths of `irqefd_ioctl` return -1; they are told apart by the
  message they log, which the embedding records.
-/

namespace IrqEventfd

/-! ## Data model (irq_eventfd.h) -/

/-- The `struct irqefd_devdata` fields other than the list linkage.
`ctx = none` is a `NULL` pointer, `ctx = some slots` is the allocated array of
`struct eventfd_ctx *`, one pointer per slot. -/
structure irqefd_devdata where
  inode : Nat
  ctx : Option (List Nat)
  num_events : Int
deriving DecidableEq, Repr

/-- The `struct irqefd_ioctl_arg` request and response record. -/
structure irqefd_ioctl_arg where
  dfd : Int
  efd : Int
  eidx : Int
  nevts : Int
deriving DecidableEq, Repr

def ATTACH_EVENT : Nat := 0x0600
def DETACH_EVENT : Nat := 0x0601
def GET_NUM_EVENTS : Nat := 0x0602

/-- The registry: `irqefd_drvdata->list` as the addresses of the linked
`irqefd_devdata` structs (first element is `list.next`), and the memory that
holds those structs. -/
structure irqefd_state where
  list : List Nat
  mem : Nat → irqefd_devdata

/-- The kernel services one `irqefd_ioctl` call relies on.
* `fget fd` is the `f_inode` of the file behind `fd`, `none` when `fget`
  returns `NULL`;
* `eventfd_ctx_fdget fd` is the pointer handed back: a live context or
  `ERR_PTR(-errno)`, never `NULL`;
* `copy_to_user` is the number of bytes of the 16-byte response that could not
  be written to the caller's buffer (0 when all of it was written). -/
structure irqefd_kernel where
  fget : Int → Option Nat
  eventfd_ctx_fdget : Int → { p : Nat // p ≠ 0 }
  copy_to_user : Fin 17

/-- The kernel's `ERR_PTR(-errno)` on a 64-bit machine. -/
def ERR_PTR (errno : Nat) : Nat := 2 ^ 64 - errno

/-- The kernel's `IS_ERR`: the top `MAX_ERRNO = 4095` addresses. -/
def IS_ERR (p : Nat) : Bool := decide (2 ^ 64 - 4095 ≤ p)

/-- The `irqefd_err` call sites of `irqefd_ioctl`, one per failure path. -/
inductive irqefd_errmsg
  /-- Message "fdget failed for fd(%d)": spec name InvalidDeviceReference -/
  | fdget_failed
  /-- Message "device not registered": spec name DeviceNotRegistered -/
  | device_not_registered
  /-- Message "already registered vector(%d)": spec name AlreadyBound -/
  | already_registered
  /-- Message "event(%d) not set": spec name NotBound -/
  | event_not_set
  /-- Message "unknown cmd(%d)": spec name UnknownCommand -/
  | unknown_cmd
deriving DecidableEq, Repr

/-- What one `irqefd_ioctl` call did: the value returned to the caller, the
state left behind, the record handed to `copy_to_user` (if any), the message
logged by `irqefd_err` (if any), the descriptors passed to
`eventfd_ctx_fdget` and the pointers passed to `eventfd_ctx_put`. -/
structure irqefd_return where
  ret : Int
  st : irqefd_state
  out : Option irqefd_ioctl_arg
  err : Option irqefd_errmsg
  converted : List Int
  released : List Nat

/-! ## Operations (irq_eventfd.c) -/

/-- The `list_for_each_entry` loop of `irqefd_ioctl`: the first linked
devdata whose `inode` equals `f_inode`, as the pointer `hit`. -/
def irqefd_find (st : irqefd_state) (f_inode : Nat) : Option Nat :=
  st.list.find? (fun devdata => (st.mem devdata).inode == f_inode)

/-- Read of `hit->ctx[eidx]`; `none` when the access is outside the array or
`ctx` is `NULL`. -/
def ctx_read (d : irqefd_devdata) (eidx : Int) : Option Nat :=
  match d.ctx with
  | none => none
  | some slots => if 0 ≤ eidx then slots[eidx.toNat]? else none

/-- Store `hit->ctx[eidx] = p` (only used after `ctx_read` succeeded). -/
def ctx_write (d : irqefd_devdata) (eidx : Int) (p : Nat) : irqefd_devdata :=
  match d.ctx with
  | none => d
  | some slots => { d with ctx := some (slots.set eidx.toNat p) }

/-- The state after the store `hit->ctx[eidx] = p`. -/
def ctx_store (st : irqefd_state) (hit : Nat) (eidx : Int) (p : Nat) : irqefd_state :=
  { st with mem := Function.update st.mem hit (ctx_write (st.mem hit) eidx p) }

/-- The `goto fail` exit (and the early `return -1`): result -1, nothing
copied out, state untouched. -/
def irqefd_fail (st : irqefd_state) (e : irqefd_errmsg) : Option irqefd_return :=
  some { ret := -1, st := st, out := none, err := some e, converted := [], released := [] }

/-- The function `irqefd_ioctl`, on the kernel copy `argp` of the request. -/
def irqefd_ioctl (k : irqefd_kernel) (st : irqefd_state) (cmd : Nat)
    (argp : irqefd_ioctl_arg) : Option irqefd_return :=
  match k.fget argp.dfd with
  | none => irqefd_fail st .fdget_failed
  | some f_inode =>
    if cmd = ATTACH_EVENT then
      match irqefd_find st f_inode with
      | none => irqefd_fail st .device_not_registered
      | some hit =>
        match ctx_read (st.mem hit) argp.eidx with
        | none => none
        | some p =>
          if p ≠ 0 then irqefd_fail st .already_registered
          else
            let efd_ctx := (k.eventfd_ctx_fdget argp.efd).val
            some { ret := (k.copy_to_user.val : Int)
                   st := ctx_store st hit argp.eidx efd_ctx
                   out := some argp
                   err := none
                   converted := [argp.efd]
                   released := [] }
    else if cmd = DETACH_EVENT then
      match irqefd_find st f_inode with
      | none => irqefd_fail st .device_not_registered
      | some hit =>
        match ctx_read (st.mem hit) argp.eidx with
        | none => none
        | some p =>
          if p = 0 then irqefd_fail st .event_not_set
          else
            some { ret := (k.copy_to_user.val : Int)
                   st := ctx_store st hit argp.eidx 0
                   out := some argp
                   err := none
                   converted := []
                   released := [p] }
    else if cmd = GET_NUM_EVENTS then
      match irqefd_find st f_inode with
      | none => irqefd_fail st .device_not_registered
      | some hit =>
        some { ret := (k.copy_to_user.val : Int)
               st := st
               out := some { argp with nevts := (st.mem hit).num_events }
               err := none
               converted := []
               released := [] }
    else irqefd_fail st .unknown_cmd

/-- The byte count `(sizeof *(devdata->ctx)) * devdata->num_events` as a
64-bit `size_t`. -/
def ctx_bytes (num_events : Int) : Nat :=
  (8 * (num_events % (2 ^ 64 : Int)).toNat) % 2 ^ 64

/-- The function `irqefd_register_device`; `kzalloc size` tells whether the
allocation of `size` bytes succeeds.  The zeroed array has one `NULL` pointer
per 8 bytes.  `list_add` puts the node right behind the list head.
The source does not test whether the node is already linked: in that case it
still runs `list_add` and returns 0, and what is left is no longer a proper
list (the node points at itself or at the old first node, and the scan can
cycle).  A list of addresses cannot hold that shape, so this one case is left
out of the embedding: `none`.  Every statement below that registers a devdata
says that it is not linked. -/
def irqefd_register_device (kzalloc : Nat → Bool) (st : irqefd_state) (devdata : Nat) :
    Option (Int × irqefd_state) :=
  let d := st.mem devdata
  if kzalloc (ctx_bytes d.num_events) then
    let slots := List.replicate (ctx_bytes d.num_events / 8) 0
    if devdata ∈ st.list then none
    else some (0, { list := devdata :: st.list,
                    mem := Function.update st.mem devdata { d with ctx := some slots } })
  else
    some (-1, { st with mem := Function.update st.mem devdata { d with ctx := none } })

/-- The function `irqefd_unregister_device`.  The source runs `list_del` and
returns 0 whatever the node is.  On a linked node this unlinks it.  On a node
that is not linked `list_del` works on the pointers the node happens to hold
(nothing happens when it points at itself, a fault when they are `NULL` or
poisoned): the list of addresses does not hold those pointers, so this case is
left out of the embedding: `none`.  Every statement below that unregisters a
devdata says that it is linked. -/
def irqefd_unregister_device (st : irqefd_state) (devdata : Nat) :
    Option (Int × irqefd_state) :=
  if devdata ∈ st.list then
    let d := st.mem devdata
    some (0, { list := st.list.erase devdata, mem := Function.update st.mem devdata { d with ctx := none } })
  else none

/-- The registry right after `irqefd_init`: an empty list. -/
def irqefd_init (mem : Nat → irqefd_devdata) : irqefd_state :=
  { list := [], mem := mem }

/-- The state left by a registration, `st` itself when it is undefined. -/
def state_after (r : Option (Int × irqefd_state)) (st : irqefd_state) : irqefd_state :=
  match r with
  | some x => x.2
  | none => st

/-- Bindings of the registry have pairwise distinct identities. -/
def distinct_inodes (st : irqefd_state) : Prop :=
  st.list.Pairwise (fun a b => (st.mem a).inode ≠ (st.mem b).inode)

/-! ## Concrete states used in the examples -/

/-- Memory as the drivers prepared it before any registration: a devdata at
address 100 (inode 7, four events), one at 200 (inode 7 as well, two events),
one at 300 (inode 9, three events) and one at 400 (inode 11, no event); no
slot array is allocated yet. -/
def mem0 : Nat → irqefd_devdata := fun a =>
  if a = 100 then { inode := 7, ctx := none, num_events := 4 }
  else if a = 200 then { inode := 7, ctx := none, num_events := 2 }
  else if a = 300 then { inode := 9, ctx := none, num_events := 3 }
  else if a = 400 then { inode := 11, ctx := none, num_events := 0 }
  else { inode := 0, ctx := none, num_events := 0 }

/-- The registry after registering the struct at address 100. -/
def st1 : irqefd_state :=
  state_after (irqefd_register_device (fun _ => true) (irqefd_init mem0) 100) (irqefd_init mem0)

/-- A kernel in which descriptor 3 is the device with inode 7, descriptor 4
the device with inode 9, descriptor 8 the device with inode 11, every eventfd
converts to the context at address 4096 + fd, and the response is copied back
in full. -/
def k_ok : irqefd_kernel :=
  { fget := fun fd =>
      if fd = 3 then some 7 else if fd = 4 then some 9 else if fd = 8 then some 11 else none
    eventfd_ctx_fdget := fun fd => ⟨4096 + fd.toNat, by omega⟩
    copy_to_user := 0 }

/-- A kernel like `k_ok` except that descriptor 5 is not an eventfd: the
conversion hands back `ERR_PTR(-EBADF)`. -/
def k_badf : irqefd_kernel :=
  { fget := fun fd =>
      if fd = 3 then some 7 else if fd = 4 then some 9 else if fd = 8 then some 11 else none
    eventfd_ctx_fdget := fun fd =>
      if fd = 5 then ⟨ERR_PTR 9, by decide⟩ else ⟨4096 + fd.toNat, by omega⟩
    copy_to_user := 0 }

/-- A kernel like `k_ok` except that the caller's buffer is not writable:
none of the 16 response bytes is copied back. -/
def k_ro : irqefd_kernel :=
  { fget := fun fd =>
      if fd = 3 then some 7 else if fd = 4 then some 9 else if fd = 8 then some 11 else none
    eventfd_ctx_fdget := fun fd => ⟨4096 + fd.toNat, by omega⟩
    copy_to_user := 16 }

/-- The registry after registering the struct at address 400, which has no
event: its slot array is empty. -/
def st_noev : irqefd_state :=
  state_after (irqefd_register_device (fun _ => true) (irqefd_init mem0) 400) (irqefd_init mem0)

/-- The registry after the Attach of the context at address 4101 to slot 2 of
the struct at address 100. -/
def st1_bound : irqefd_state := ctx_store st1 100 2 4101

/-- The registry after registering the struct at address 100 and then the
struct at address 200, which has the same inode. -/
def st2 : irqefd_state := state_after (irqefd_register_device (fun _ => true) st1 200) st1

/-- The registry after registering the struct at address 100 and then the
struct at address 300, which has another inode. -/
def st3 : irqefd_state := state_after (irqefd_register_device (fun _ => true) st1 300) st1

/-! ## Runs of the registry -/

/-- One call into the module: a driver registering or unregistering its
devdata, or a control request. -/
inductive irqefd_op
  | register (kzalloc : Nat → Bool) (devdata : Nat)
  | unregister (devdata : Nat)
  | ioctl (k : irqefd_kernel) (cmd : Nat) (argp : irqefd_ioctl_arg)

/-- The state after one call; `none` when the call is undefined. -/
def irqefd_apply (st : irqefd_state) : irqefd_op → Option irqefd_state
  | .register kzalloc devdata => (irqefd_register_device kzalloc st devdata).map (fun r => r.2)
  | .unregister devdata => (irqefd_unregister_device st devdata).map (fun r => r.2)
  | .ioctl k cmd argp => (irqefd_ioctl k st cmd argp).map (fun r => r.st)

/-- The state after a sequence of calls. -/
def irqefd_run (st : irqefd_state) : List irqefd_op → Option irqefd_state
  | [] => some st
  | op :: ops => (irqefd_apply st op).bind (fun st' => irqefd_run st' ops)

/-- The call `op`, made in state `st`, unregisters `b` or successfully
registers a devdata with the inode of `b`. -/
def irqefd_displaces (st : irqefd_state) (b : Nat) : irqefd_op → Bool
  | .register kzalloc devdata =>
      match irqefd_register_device kzalloc st devdata with
      | some r => decide (r.1 = 0) && ((st.mem devdata).inode == (st.mem b).inode)
      | none => false
  | .unregister devdata => devdata == b
  | .ioctl _ _ _ => false

/-- No call of the sequence, started in `st`, unregisters `b` or successfully
registers a devdata with the inode of `b`. -/
def irqefd_keeps (b : Nat) : irqefd_state → List irqefd_op → Bool
  | _, [] => true
  | st, op :: ops =>
      !(irqefd_displaces st b op) &&
        (match irqefd_apply st op with
         | none => true
         | some st' => irqefd_keeps b st' ops)

/-- The call `op`, made in state `st`, stays within the embedding: a
registration that reaches `list_add` (its allocation succeeds) is of a devdata
that is not linked, an unregistration is of a devdata that is linked, and a
control request does not index `ctx` outside the slot array. -/
def irqefd_proper_call (st : irqefd_state) : irqefd_op → Bool
  | .register kzalloc devdata =>
      !(decide (devdata ∈ st.list)) || !(kzalloc (ctx_bytes (st.mem devdata).num_events))
  | .unregister devdata => decide (devdata ∈ st.list)
  | .ioctl k cmd argp => (irqefd_ioctl k st cmd argp).isSome

/-- Every call of the sequence, started in `st`, is made in a state in which
it is a proper call. -/
def irqefd_proper : irqefd_state → List irqefd_op → Bool
  | _, [] => true
  | st, op :: ops =>
      irqefd_proper_call st op &&
        (match irqefd_apply st op with
         | none => false
         | some st' => irqefd_proper st' ops)

/-- The devdata `b` is linked and no devdata linked in front of it (that is,
registered after it) has its inode. -/
def first_with_inode (st : irqefd_state) (b : Nat) : Prop :=
  ∃ l1 l2, st.list = l1 ++ b :: l2 ∧ ∀ a ∈ l1, (st.mem a).inode ≠ (st.mem b).inode

/-- A sequence of calls made after the struct at address 100 was registered:
a registration of the struct at address 200 (same inode) that fails for lack
of memory, the registration of the struct at address 300, an Attach to slot 2
of the device with inode 7, a second registration of the struct at address 100
that fails for lack of memory, and the unregistration of the struct at 300. -/
def ops_demo : List irqefd_op :=
  [ .register (fun _ => false) 200,
    .register (fun _ => true) 300,
    .ioctl k_ok ATTACH_EVENT { dfd := 3, efd := 5, eidx := 2, nevts := 0 },
    .register (fun _ => false) 100,
    .unregister 300 ]

/-- The registry after `ops_demo`, started right after the registration of
the struct at address 100. -/
def st_demo : irqefd_state := (irqefd_run st1 ops_demo).getD st1

/-! ## Unfolding lemmas for `irqefd_ioctl` -/

theorem ioctl_attach_unfold (k : irqefd_kernel) (st : irqefd_state) (argp : irqefd_ioctl_arg)
    (ino hit : Nat) (hfget : k.fget argp.dfd = some ino) (hfind : irqefd_find st ino = some hit) :
    irqefd_ioctl k st ATTACH_EVENT argp =
      match ctx_read (st.mem hit) argp.eidx with
      | none => none
      | some p =>
        if p ≠ 0 then irqefd_fail st .already_registered
        else some { ret := (k.copy_to_user.val : Int)
                    st := ctx_store st hit argp.eidx (k.eventfd_ctx_fdget argp.efd).val
                    out := some argp
                    err := none
                    converted := [argp.efd]
                    released := [] } := by
  simp [irqefd_ioctl, hfget, hfind]

theorem ioctl_detach_unfold (k : irqefd_kernel) (st : irqefd_state) (argp : irqefd_ioctl_arg)
    (ino hit : Nat) (hfget : k.fget argp.dfd = some ino) (hfind : irqefd_find st ino = some hit) :
    irqefd_ioctl k st DETACH_EVENT argp =
      match ctx_read (st.mem hit) argp.eidx with
      | none => none
      | some p =>
        if p = 0 then irqefd_fail st .event_not_set
        else some { ret := (k.copy_to_user.val : Int)
                    st := ctx_store st hit argp.eidx 0
                    out := some argp
                    err := none
                    converted := []
                    released := [p] } := by
  simp [irqefd_ioctl, hfget, hfind, ATTACH_EVENT, DETACH_EVENT]

theorem ioctl_query_unfold (k : irqefd_kernel) (st : irqefd_state) (argp : irqefd_ioctl_arg)
    (ino hit : Nat) (hfget : k.fget argp.dfd = some ino) (hfind : irqefd_find st ino = some hit) :
    irqefd_ioctl k st GET_NUM_EVENTS argp =
      some { ret := (k.copy_to_user.val : Int)
             st := st
             out := some { argp with nevts := (st.mem hit).num_events }
             err := none
             converted := []
             released := [] } := by
  simp [irqefd_ioctl, hfget, hfind, ATTACH_EVENT, DETACH_EVENT, GET_NUM_EVENTS]

theorem ctx_read_some (d : irqefd_devdata) (eidx : Int) (slots : List Nat) (p : Nat)
    (hctx : d.ctx = some slots) (hidx : 0 ≤ eidx) (hslot : slots[eidx.toNat]? = some p) :
    ctx_read d eidx = some p := by
  simp [ctx_read, hctx, hidx, hslot]

theorem ctx_read_out_of_range (d : irqefd_devdata) (eidx : Int) (slots : List Nat)
    (hctx : d.ctx = some slots) (hout : eidx < 0 ∨ (slots.length : Int) ≤ eidx) :
    ctx_read d eidx = none := by
  simp only [ctx_read, hctx]
  rcases hout with h | h
  · simp [Int.not_le.mpr h]
  · have h0 : 0 ≤ eidx := le_trans (Int.ofNat_nonneg _) h
    have : slots.length ≤ eidx.toNat := by omega
    simp [h0, List.getElem?_eq_none this]

/-- For a registered binding with an allocated slot array, an Attach or a
Detach whose index is negative or at least the array length reads `ctx[eidx]`
outside the array: the call has no defined result. -/
theorem ioctl_out_of_range_undefined (k : irqefd_kernel) (st : irqefd_state)
    (argp : irqefd_ioctl_arg) (ino hit : Nat) (slots : List Nat)
    (hfget : k.fget argp.dfd = some ino) (hfind : irqefd_find st ino = some hit)
    (hctx : (st.mem hit).ctx = some slots)
    (hout : argp.eidx < 0 ∨ (slots.length : Int) ≤ argp.eidx) :
    irqefd_ioctl k st ATTACH_EVENT argp = none ∧ irqefd_ioctl k st DETACH_EVENT argp = none := by
  have hr := ctx_read_out_of_range (st.mem hit) argp.eidx slots hctx hout
  constructor
  · rw [ioctl_attach_unfold k st argp ino hit hfget hfind, hr]
  · rw [ioctl_detach_unfold k st argp ino hit hfget hfind, hr]

/-! ## C1: index out of range -/

/-- C1 (code defect): on the binding registered with four events, Attach and
Detach with `eidx = 4` (equal to the event count) and with `eidx = -1` do not
fail with an out-of-range error: `irqefd_ioctl` indexes `ctx` outside the
array, so the call has no defined result.  The same holds for `eidx = 0` on a
binding registered with no event.  In each case the lookup that precedes the
access does find the binding, and the array has as many slots as events. -/
theorem C1_out_of_range_index_is_not_rejected :
    irqefd_find st1 7 = some 100 ∧ (st1.mem 100).ctx = some [0, 0, 0, 0] ∧
    (st1.mem 100).num_events = 4 ∧
    irqefd_ioctl k_ok st1 ATTACH_EVENT { dfd := 3, efd := 5, eidx := 4, nevts := 0 } = none ∧
    irqefd_ioctl k_ok st1 DETACH_EVENT { dfd := 3, efd := 5, eidx := 4, nevts := 0 } = none ∧
    irqefd_ioctl k_ok st1 ATTACH_EVENT { dfd := 3, efd := 5, eidx := -1, nevts := 0 } = none ∧
    irqefd_ioctl k_ok st1 DETACH_EVENT { dfd := 3, efd := 5, eidx := -1, nevts := 0 } = none ∧
    irqefd_find st_noev 11 = some 400 ∧ (st_noev.mem 400).ctx = some [] ∧
    (st_noev.mem 400).num_events = 0 ∧
    irqefd_ioctl k_ok st_noev ATTACH_EVENT { dfd := 8, efd := 5, eidx := 0, nevts := 0 } = none ∧
    irqefd_ioctl k_ok st_noev DETACH_EVENT { dfd := 8, efd := 5, eidx := 0, nevts := 0 } = none :=
  ⟨rfl, rfl, rfl, rfl, rfl, rfl, rfl, rfl, rfl, rfl, rfl, rfl⟩

/-! ## C2: failed conversion -/

/-- C2 (code defect): on an empty in-range slot, an Attach whose conversion
fails (the kernel hands back `ERR_PTR(-EBADF)`) returns 0 with no error
logged, stores the error pointer in the slot, and a later Attach on that slot
with a good descriptor is rejected as already registered. -/
theorem C2_failed_conversion_is_stored :
    ctx_read (st1.mem 100) 2 = some 0 ∧
    IS_ERR (k_badf.eventfd_ctx_fdget 5).val = true ∧
    ∃ r, irqefd_ioctl k_badf st1 ATTACH_EVENT { dfd := 3, efd := 5, eidx := 2, nevts := 0 } = some r ∧
      r.ret = 0 ∧ r.err = none ∧
      ctx_read (r.st.mem 100) 2 = some (ERR_PTR 9) ∧
      ∃ r2, irqefd_ioctl k_ok r.st ATTACH_EVENT { dfd := 3, efd := 6, eidx := 2, nevts := 0 } = some r2 ∧
        r2.ret = -1 ∧ r2.err = some .already_registered :=
  ⟨rfl, by decide, _, rfl, rfl, rfl, by decide, _, rfl, rfl, rfl⟩

/-! ## C3: Attach on a bound slot -/

/-- C3: when the request resolves to a registered binding whose in-range slot
`eidx` holds the non-NULL handle `H1`, Attach returns -1 on the "already
registered" path, calls neither `eventfd_ctx_fdget` nor `eventfd_ctx_put`,
copies nothing out and leaves the state as it was; in particular the slot
still holds `H1`. -/
theorem C3_attach_on_bound_slot (k : irqefd_kernel) (st : irqefd_state)
    (argp : irqefd_ioctl_arg) (ino hit : Nat) (slots : List Nat) (H1 : Nat)
    (hfget : k.fget argp.dfd = some ino) (hfind : irqefd_find st ino = some hit)
    (hctx : (st.mem hit).ctx = some slots) (hidx : 0 ≤ argp.eidx)
    (hslot : slots[argp.eidx.toNat]? = some H1) (hH : H1 ≠ 0) :
    irqefd_ioctl k st ATTACH_EVENT argp =
      some { ret := -1, st := st, out := none, err := some .already_registered,
             converted := [], released := [] } ∧
    ctx_read (st.mem hit) argp.eidx = some H1 := by
  have hr := ctx_read_some (st.mem hit) argp.eidx slots H1 hctx hidx hslot
  refine ⟨?_, hr⟩
  rw [ioctl_attach_unfold k st argp ino hit hfget hfind, hr]
  simp [hH, irqefd_fail]

/-! ## C4: Detach on an empty slot -/

/-- C4: when the request resolves to a registered binding whose in-range slot
`eidx` is empty (NULL), Detach returns -1 on the "not set" path, releases
nothing, converts nothing, copies nothing out, and the whole state (list and
memory) is the one before the call. -/
theorem C4_detach_on_empty_slot (k : irqefd_kernel) (st : irqefd_state)
    (argp : irqefd_ioctl_arg) (ino hit : Nat) (slots : List Nat)
    (hfget : k.fget argp.dfd = some ino) (hfind : irqefd_find st ino = some hit)
    (hctx : (st.mem hit).ctx = some slots) (hidx : 0 ≤ argp.eidx)
    (hslot : slots[argp.eidx.toNat]? = some 0) :
    irqefd_ioctl k st DETACH_EVENT argp =
      some { ret := -1, st := st, out := none, err := some .event_not_set,
             converted := [], released := [] } := by
  have hr := ctx_read_some (st.mem hit) argp.eidx slots 0 hctx hidx hslot
  rw [ioctl_detach_unfold k st argp ino hit hfget hfind, hr]
  simp [irqefd_fail]

/-! ## C5: Attach then Detach -/

theorem ctx_write_inode (d : irqefd_devdata) (eidx : Int) (p : Nat) :
    (ctx_write d eidx p).inode = d.inode := by
  unfold ctx_write
  split <;> rfl

theorem ctx_write_num_events (d : irqefd_devdata) (eidx : Int) (p : Nat) :
    (ctx_write d eidx p).num_events = d.num_events := by
  unfold ctx_write
  split <;> rfl

theorem ctx_store_inode (st : irqefd_state) (hit : Nat) (eidx : Int) (p : Nat) (a : Nat) :
    ((ctx_store st hit eidx p).mem a).inode = (st.mem a).inode := by
  by_cases h : a = hit
  · subst h
    simp [ctx_store, ctx_write_inode]
  · simp [ctx_store, Function.update_noteq h]

/-- The store into a slot does not change what the lookup returns. -/
theorem find_ctx_store (st : irqefd_state) (hit : Nat) (eidx : Int) (p : Nat) (ino : Nat) :
    irqefd_find (ctx_store st hit eidx p) ino = irqefd_find st ino := by
  unfold irqefd_find
  have hl : (ctx_store st hit eidx p).list = st.list := rfl
  rw [hl]
  congr 1
  funext a
  rw [ctx_store_inode]

theorem ctx_read_ctx_store (st : irqefd_state) (hit : Nat) (eidx : Int) (p : Nat)
    (slots : List Nat) (hctx : (st.mem hit).ctx = some slots) (hidx : 0 ≤ eidx)
    (hlt : eidx.toNat < slots.length) :
    ctx_read ((ctx_store st hit eidx p).mem hit) eidx = some p := by
  simp [ctx_store, ctx_write, ctx_read, hctx, hidx, hlt]

theorem ctx_store_store_empty (st : irqefd_state) (hit : Nat) (eidx : Int) (p : Nat)
    (slots : List Nat) (hctx : (st.mem hit).ctx = some slots)
    (hslot : slots[eidx.toNat]? = some 0) :
    ctx_store (ctx_store st hit eidx p) hit eidx 0 = st := by
  obtain ⟨hlt, hget⟩ := List.getElem?_eq_some_iff.mp hslot
  have hset : slots.set eidx.toNat 0 = slots := by
    apply List.ext_getElem?
    intro j
    by_cases hj : eidx.toNat = j
    · subst hj
      simp [hlt, hget]
    · simp [List.getElem?_set_ne hj]
  cases st with
  | mk l m =>
    simp only [ctx_store, Function.update_same, Function.update_idem]
    congr 1
    apply Function.update_eq_self_iff.mpr
    simp only at hctx
    simp only [ctx_write, hctx, List.set_set, hset]
    cases hm : m hit with
    | mk i c n =>
      rw [hm] at hctx
      simp only at hctx
      simp [hctx]

/-- C5 (amended): when the request resolves to a registered binding whose
in-range slot `eidx` is empty and the conversion of the request's descriptor
yields the handle `H`, Attach takes no failure path and stores `H`; a Detach on
the same slot issued right after it takes no failure path, hands exactly `H`
to `eventfd_ctx_put` exactly once, leaves the slot empty and the state equal
to the state before the Attach.  The value each call returns is the number of
response bytes `copy_to_user` could not write (0 when the response is copied
back in full). -/
theorem C5_attach_then_detach (k1 k2 : irqefd_kernel) (st : irqefd_state)
    (a1 a2 : irqefd_ioctl_arg) (ino hit : Nat) (slots : List Nat) (H : Nat)
    (hf1 : k1.fget a1.dfd = some ino) (hf2 : k2.fget a2.dfd = some ino)
    (hfind : irqefd_find st ino = some hit)
    (hctx : (st.mem hit).ctx = some slots) (hidx : 0 ≤ a1.eidx)
    (hslot : slots[a1.eidx.toNat]? = some 0) (hsame : a2.eidx = a1.eidx)
    (hconv : (k1.eventfd_ctx_fdget a1.efd).val = H) :
    ∃ r1 r2,
      irqefd_ioctl k1 st ATTACH_EVENT a1 = some r1 ∧
      r1.err = none ∧ r1.ret = (k1.copy_to_user.val : Int) ∧
      ctx_read (r1.st.mem hit) a1.eidx = some H ∧
      irqefd_ioctl k2 r1.st DETACH_EVENT a2 = some r2 ∧
      r2.err = none ∧ r2.ret = (k2.copy_to_user.val : Int) ∧
      r2.released = [H] ∧
      ctx_read (r2.st.mem hit) a1.eidx = some 0 ∧
      r2.st = st := by
  have hH : H ≠ 0 := hconv ▸ (k1.eventfd_ctx_fdget a1.efd).property
  obtain ⟨hlt, _⟩ := List.getElem?_eq_some_iff.mp hslot
  have hr := ctx_read_some (st.mem hit) a1.eidx slots 0 hctx hidx hslot
  have hr1 := ctx_read_ctx_store st hit a1.eidx H slots hctx hidx hlt
  have hfind1 : irqefd_find (ctx_store st hit a1.eidx H) ino = some hit := by
    rw [find_ctx_store, hfind]
  have hback := ctx_store_store_empty st hit a1.eidx H slots hctx hslot
  have h1 : irqefd_ioctl k1 st ATTACH_EVENT a1 =
      some { ret := (k1.copy_to_user.val : Int), st := ctx_store st hit a1.eidx H,
             out := some a1, err := none, converted := [a1.efd], released := [] } := by
    rw [ioctl_attach_unfold k1 st a1 ino hit hf1 hfind, hr]
    simp only [ne_eq, not_true_eq_false, if_false, hconv]
  have h2 : irqefd_ioctl k2 (ctx_store st hit a1.eidx H) DETACH_EVENT a2 =
      some { ret := (k2.copy_to_user.val : Int), st := st,
             out := some a2, err := none, converted := [], released := [H] } := by
    rw [ioctl_detach_unfold k2 _ a2 ino hit hf2 hfind1, hsame, hr1]
    simp only [hH, if_false, hback]
  exact ⟨_, _, h1, rfl, rfl, hr1, h2, rfl, rfl, rfl, hr, rfl⟩

/-! ## C6: failed calls -/

/-- Every call that returns took either a failure path (result -1, a message
logged, nothing else done) or the common success exit (result is the value of
`copy_to_user`, no message logged). -/
theorem ioctl_fail_or_done (k : irqefd_kernel) (st : irqefd_state) (cmd : Nat)
    (argp : irqefd_ioctl_arg) (r : irqefd_return)
    (h : irqefd_ioctl k st cmd argp = some r) :
    (∃ e, r = { ret := -1, st := st, out := none, err := some e,
                converted := [], released := [] }) ∨
    (r.ret = (k.copy_to_user.val : Int) ∧ r.err = none) := by
  unfold irqefd_ioctl irqefd_fail at h
  repeat' split at h
  all_goals cases h <;> first | exact Or.inl ⟨_, rfl⟩ | exact Or.inr ⟨rfl, rfl⟩

/-- C6 (amended): for every state, command value and request, if the call
returns a negative result (the -1 of a failure path), then the state after the
call, bindings and every slot, is the state before it, and the call converted
nothing, released nothing and copied nothing out. -/
theorem C6_negative_result_leaves_state (k : irqefd_kernel) (st : irqefd_state) (cmd : Nat)
    (argp : irqefd_ioctl_arg) (r : irqefd_return)
    (h : irqefd_ioctl k st cmd argp = some r) (hret : r.ret < 0) :
    r.st = st ∧ r.converted = [] ∧ r.released = [] ∧ r.out = none ∧ r.ret = -1 := by
  rcases ioctl_fail_or_done k st cmd argp r h with ⟨e, he⟩ | ⟨hr, _⟩
  · subst he
    exact ⟨rfl, rfl, rfl, rfl, rfl⟩
  · rw [hr] at hret
    exact absurd hret (by omega)

/-- C6 (counterexample): with a caller buffer that cannot be written, Attach
on the empty slot 2 of the registered binding returns the non-zero value 16,
yet slot 2 of the binding has changed from empty to the converted handle. -/
theorem C6_nonzero_result_after_mutation :
    ∃ r, irqefd_ioctl k_ro st1 ATTACH_EVENT { dfd := 3, efd := 5, eidx := 2, nevts := 0 } = some r ∧
      r.ret = 16 ∧ r.ret ≠ 0 ∧
      (st1.mem 100).ctx = some [0, 0, 0, 0] ∧
      (r.st.mem 100).ctx = some [0, 0, 4101, 0] ∧
      r.st.mem 100 ≠ st1.mem 100 :=
  ⟨_, rfl, rfl, by decide, rfl, rfl, by decide⟩

/-! ## C9: QueryEventCount -/

/-- C9 (amended): when the request resolves to a registered binding,
QueryEventCount takes no failure path, the `nevts` field of the response
handed to `copy_to_user` is the binding's `num_events` whatever the request's
`eidx`, `efd` and `nevts` are, the other fields are the request's, the state is
unchanged, nothing is converted or released, and the value returned is the
number of response bytes `copy_to_user` could not write (0 when the response
is copied back in full). -/
theorem C9_query_event_count (k : irqefd_kernel) (st : irqefd_state)
    (argp : irqefd_ioctl_arg) (ino hit : Nat)
    (hfget : k.fget argp.dfd = some ino) (hfind : irqefd_find st ino = some hit) :
    irqefd_ioctl k st GET_NUM_EVENTS argp =
      some { ret := (k.copy_to_user.val : Int)
             st := st
             out := some { dfd := argp.dfd, efd := argp.efd, eidx := argp.eidx,
                           nevts := (st.mem hit).num_events }
             err := none
             converted := []
             released := [] } :=
  ioctl_query_unfold k st argp ino hit hfget hfind

/-- C9 (counterexample): with a caller buffer that cannot be written,
QueryEventCount addressed to the registered binding returns the non-zero
value 16. -/
theorem C9_query_nonzero_result :
    irqefd_find st1 7 = some 100 ∧ k_ro.fget 3 = some 7 ∧
    ∃ r, irqefd_ioctl k_ro st1 GET_NUM_EVENTS { dfd := 3, efd := 0, eidx := 0, nevts := 0 } = some r ∧
      r.ret = 16 ∧ r.ret ≠ 0 :=
  ⟨rfl, rfl, _, rfl, rfl, by decide⟩

/-- C5 (counterexample): Attach on the empty slot 2 succeeds (returns 0); the
Detach on slot 2 that follows, issued with a caller buffer that cannot be
written, returns the non-zero value 16. -/
theorem C5_detach_nonzero_result :
    ∃ r1, irqefd_ioctl k_ok st1 ATTACH_EVENT { dfd := 3, efd := 5, eidx := 2, nevts := 0 } = some r1 ∧
      r1.ret = 0 ∧
      ∃ r2, irqefd_ioctl k_ro r1.st DETACH_EVENT { dfd := 3, efd := 5, eidx := 2, nevts := 0 } = some r2 ∧
        r2.ret = 16 ∧ r2.ret ≠ 0 ∧ r2.released = [4101] :=
  ⟨_, rfl, rfl, _, rfl, rfl, by decide, rfl⟩

/-! ## C10: frame of a successful Attach or Detach -/

theorem ctx_read_eq_some (d : irqefd_devdata) (eidx : Int) (slots : List Nat) (p : Nat)
    (hctx : d.ctx = some slots) (h : ctx_read d eidx = some p) :
    0 ≤ eidx ∧ slots[eidx.toNat]? = some p := by
  simp only [ctx_read, hctx] at h
  by_cases h0 : 0 ≤ eidx
  · simp only [h0, if_true] at h
    exact ⟨h0, h⟩
  · simp [h0] at h

theorem ctx_store_mem_ne (st : irqefd_state) (hit : Nat) (eidx : Int) (p : Nat) (a : Nat)
    (ha : a ≠ hit) : (ctx_store st hit eidx p).mem a = st.mem a := by
  simp [ctx_store, Function.update_noteq ha]

theorem ctx_store_ctx (st : irqefd_state) (hit : Nat) (eidx : Int) (p : Nat) (slots : List Nat)
    (hctx : (st.mem hit).ctx = some slots) :
    ((ctx_store st hit eidx p).mem hit).ctx = some (slots.set eidx.toNat p) := by
  simp [ctx_store, ctx_write, hctx]

theorem ctx_store_num_events (st : irqefd_state) (hit : Nat) (eidx : Int) (p : Nat) :
    ((ctx_store st hit eidx p).mem hit).num_events = (st.mem hit).num_events := by
  simp [ctx_store, ctx_write_num_events]

/-- C10: when the request resolves to the registered binding `hit` with slot
array `slots`, and Attach or Detach returns 0, then the index was in range,
the list of bindings is unchanged, every other devdata is unchanged, the
inode and event count of `hit` are unchanged, the slot array keeps its length
and every slot other than `eidx` keeps its content; slot `eidx` went from
empty to the non-NULL converted pointer (Attach), or from a non-NULL pointer,
the one handed to `eventfd_ctx_put`, to empty (Detach). -/
theorem C10_frame_of_success (k : irqefd_kernel) (st : irqefd_state) (cmd : Nat)
    (argp : irqefd_ioctl_arg) (r : irqefd_return) (ino hit : Nat) (slots : List Nat)
    (hcmd : cmd = ATTACH_EVENT ∨ cmd = DETACH_EVENT)
    (hfget : k.fget argp.dfd = some ino) (hfind : irqefd_find st ino = some hit)
    (hctx : (st.mem hit).ctx = some slots)
    (h : irqefd_ioctl k st cmd argp = some r) (hret : r.ret = 0) :
    (0 ≤ argp.eidx ∧ argp.eidx.toNat < slots.length) ∧
    r.st.list = st.list ∧
    (∀ a, a ≠ hit → r.st.mem a = st.mem a) ∧
    (r.st.mem hit).inode = (st.mem hit).inode ∧
    (r.st.mem hit).num_events = (st.mem hit).num_events ∧
    ∃ slots', (r.st.mem hit).ctx = some slots' ∧ slots'.length = slots.length ∧
      (∀ j, j ≠ argp.eidx.toNat → slots'[j]? = slots[j]?) ∧
      (cmd = ATTACH_EVENT →
        slots[argp.eidx.toNat]? = some 0 ∧
        slots'[argp.eidx.toNat]? = some (k.eventfd_ctx_fdget argp.efd).val ∧
        (k.eventfd_ctx_fdget argp.efd).val ≠ 0 ∧
        r.converted = [argp.efd] ∧ r.released = []) ∧
      (cmd = DETACH_EVENT →
        (∃ p, p ≠ 0 ∧ slots[argp.eidx.toNat]? = some p ∧ r.released = [p]) ∧
        slots'[argp.eidx.toNat]? = some 0 ∧ r.converted = []) := by
  rcases hcmd with hc | hc
  · subst hc
    rw [ioctl_attach_unfold k st argp ino hit hfget hfind] at h
    cases hr : ctx_read (st.mem hit) argp.eidx with
    | none => simp [hr] at h
    | some p =>
      obtain ⟨h0, hp⟩ := ctx_read_eq_some _ _ slots p hctx hr
      obtain ⟨hlt, _⟩ := List.getElem?_eq_some_iff.mp hp
      simp only [hr] at h
      by_cases hp0 : p = 0
      · subst hp0
        simp only [ne_eq, not_true_eq_false, if_false, Option.some.injEq] at h
        subst h
        refine ⟨⟨h0, hlt⟩, rfl, fun a ha => ctx_store_mem_ne _ _ _ _ a ha,
          ctx_store_inode _ _ _ _ _, ctx_store_num_events _ _ _ _,
          _, ctx_store_ctx _ _ _ _ slots hctx, by simp, ?_, ?_, ?_⟩
        · intro j hj
          exact List.getElem?_set_ne (Ne.symm hj)
        · intro _
          refine ⟨hp, ?_, (k.eventfd_ctx_fdget argp.efd).property, rfl, rfl⟩
          simp [hlt]
        · intro hcontra
          exact absurd hcontra (by decide)
      · simp only [ne_eq, hp0, not_false_eq_true, if_true, irqefd_fail, Option.some.injEq] at h
        subst h
        simp at hret
  · subst hc
    rw [ioctl_detach_unfold k st argp ino hit hfget hfind] at h
    cases hr : ctx_read (st.mem hit) argp.eidx with
    | none => simp [hr] at h
    | some p =>
      obtain ⟨h0, hp⟩ := ctx_read_eq_some _ _ slots p hctx hr
      obtain ⟨hlt, _⟩ := List.getElem?_eq_some_iff.mp hp
      simp only [hr] at h
      by_cases hp0 : p = 0
      · simp only [hp0, if_true, irqefd_fail, Option.some.injEq] at h
        subst h
        simp at hret
      · simp only [hp0, if_false, Option.some.injEq] at h
        subst h
        refine ⟨⟨h0, hlt⟩, rfl, fun a ha => ctx_store_mem_ne _ _ _ _ a ha,
          ctx_store_inode _ _ _ _ _, ctx_store_num_events _ _ _ _,
          _, ctx_store_ctx _ _ _ _ slots hctx, by simp, ?_, ?_, ?_⟩
        · intro j hj
          exact List.getElem?_set_ne (Ne.symm hj)
        · intro hcontra
          exact absurd hcontra (by decide)
        · intro _
          refine ⟨⟨p, hp0, hp, rfl⟩, ?_, rfl⟩
          simp [hlt]

/-! ## C7: lookup of a registered binding -/

theorem register_some (kzalloc : Nat → Bool) (st : irqefd_state) (d : Nat)
    (r : Int × irqefd_state) (h : irqefd_register_device kzalloc st d = some r) :
    (∀ a, (r.2.mem a).inode = (st.mem a).inode) ∧
    (r.1 = 0 → r.2.list = d :: st.list) ∧
    (r.1 ≠ 0 → r.2.list = st.list) := by
  have hin : ∀ (c : Option (List Nat)) (a : Nat),
      (Function.update st.mem d { st.mem d with ctx := c } a).inode = (st.mem a).inode := by
    intro c a
    by_cases ha : a = d
    · subst ha
      simp
    · simp [Function.update_noteq ha]
  simp only [irqefd_register_device] at h
  by_cases hk : kzalloc (ctx_bytes (st.mem d).num_events) = true
  · by_cases hd : d ∈ st.list
    · simp [hk, hd] at h
    · simp only [hk, hd, if_true, if_false, Option.some.injEq] at h
      subst h
      exact ⟨fun a => hin _ a, fun _ => rfl, fun hne => absurd rfl hne⟩
  · simp only [hk, Bool.false_eq_true, if_false, Option.some.injEq] at h
    subst h
    refine ⟨fun a => hin _ a, fun h0 => ?_, fun _ => rfl⟩
    simp at h0

theorem unregister_some (st : irqefd_state) (d : Nat) (r : Int × irqefd_state)
    (h : irqefd_unregister_device st d = some r) :
    d ∈ st.list ∧ r.1 = 0 ∧ r.2.list = st.list.erase d ∧
    (∀ a, (r.2.mem a).inode = (st.mem a).inode) ∧
    (∀ a, a ≠ d → r.2.mem a = st.mem a) := by
  unfold irqefd_unregister_device at h
  by_cases hd : d ∈ st.list
  · simp only [hd, if_true, Option.some.injEq] at h
    subst h
    refine ⟨hd, rfl, rfl, ?_, ?_⟩
    · intro a
      by_cases ha : a = d
      · subst ha
        simp
      · simp [Function.update_noteq ha]
    · intro a ha
      simp [Function.update_noteq ha]
  · simp [hd] at h

/-- A call that returns leaves the state as it was or stores one pointer
into one slot of one linked devdata. -/
theorem ioctl_state (k : irqefd_kernel) (st : irqefd_state) (cmd : Nat)
    (argp : irqefd_ioctl_arg) (r : irqefd_return)
    (h : irqefd_ioctl k st cmd argp = some r) :
    r.st = st ∨ ∃ hit p, r.st = ctx_store st hit argp.eidx p := by
  unfold irqefd_ioctl irqefd_fail at h
  repeat' split at h
  all_goals cases h <;> first | exact Or.inl rfl | exact Or.inr ⟨_, _, rfl⟩

theorem ioctl_list_inode (k : irqefd_kernel) (st : irqefd_state) (cmd : Nat)
    (argp : irqefd_ioctl_arg) (r : irqefd_return)
    (h : irqefd_ioctl k st cmd argp = some r) :
    r.st.list = st.list ∧ ∀ a, (r.st.mem a).inode = (st.mem a).inode := by
  rcases ioctl_state k st cmd argp r h with hs | ⟨hit, p, hs⟩
  · rw [hs]
    exact ⟨rfl, fun _ => rfl⟩
  · rw [hs]
    exact ⟨rfl, fun a => ctx_store_inode st hit argp.eidx p a⟩

/-- The scan returns the first linked devdata with the inode asked for. -/
theorem find_of_first (st : irqefd_state) (b : Nat) (h : first_with_inode st b) :
    irqefd_find st (st.mem b).inode = some b := by
  obtain ⟨l1, l2, hl, hne⟩ := h
  unfold irqefd_find
  rw [List.find?_eq_some]
  refine ⟨by simp, l1, l2, hl, ?_⟩
  intro a ha
  simpa using hne a ha

theorem first_after_register (kzalloc : Nat → Bool) (st stb : irqefd_state) (b : Nat)
    (h : irqefd_register_device kzalloc st b = some (0, stb)) :
    first_with_inode stb b :=
  ⟨[], st.list, (register_some kzalloc st b (0, stb) h).2.1 rfl, by simp⟩

/-- A call that neither unregisters `b` nor registers a devdata with its
inode keeps `b` the first linked devdata with that inode. -/
theorem first_preserved (st st' : irqefd_state) (b : Nat) (op : irqefd_op)
    (hinv : first_with_inode st b) (hkeep : irqefd_displaces st b op = false)
    (hstep : irqefd_apply st op = some st') : first_with_inode st' b := by
  obtain ⟨l1, l2, hl, hne⟩ := hinv
  cases op with
  | register kzalloc d =>
    simp only [irqefd_apply, Option.map_eq_some'] at hstep
    obtain ⟨r, hr, rfl⟩ := hstep
    obtain ⟨hin, hok1, hfail1⟩ := register_some kzalloc st d r hr
    by_cases hok : r.1 = 0
    · have hd : (st.mem d).inode ≠ (st.mem b).inode := by
        simpa [irqefd_displaces, hr, hok] using hkeep
      refine ⟨d :: l1, l2, ?_, ?_⟩
      · rw [hok1 hok, hl]
        rfl
      · intro a ha
        rw [hin a, hin b]
        rcases List.mem_cons.mp ha with rfl | ha
        · exact hd
        · exact hne a ha
    · refine ⟨l1, l2, ?_, ?_⟩
      · rw [hfail1 hok, hl]
      · intro a ha
        rw [hin a, hin b]
        exact hne a ha
  | unregister d =>
    have hdb : d ≠ b := by simpa [irqefd_displaces] using hkeep
    simp only [irqefd_apply, Option.map_eq_some'] at hstep
    obtain ⟨r, hr, rfl⟩ := hstep
    obtain ⟨_, _, hlist, hin, _⟩ := unregister_some st d r hr
    by_cases hd1 : d ∈ l1
    · refine ⟨l1.erase d, l2, ?_, ?_⟩
      · rw [hlist, hl, List.erase_append_left _ hd1]
      · intro a ha
        rw [hin a, hin b]
        exact hne a (List.mem_of_mem_erase ha)
    · refine ⟨l1, l2.erase d, ?_, ?_⟩
      · rw [hlist, hl, List.erase_append_right _ hd1, List.erase_cons_tail]
        simpa using Ne.symm hdb
      · intro a ha
        rw [hin a, hin b]
        exact hne a ha
  | ioctl k cmd argp =>
    simp only [irqefd_apply, Option.map_eq_some'] at hstep
    obtain ⟨r, hr, rfl⟩ := hstep
    obtain ⟨hlist, hin⟩ := ioctl_list_inode k st cmd argp r hr
    refine ⟨l1, l2, by rw [hlist, hl], ?_⟩
    intro a ha
    rw [hin a, hin b]
    exact hne a ha

/-- A proper call has a defined result in the embedding. -/
theorem proper_call_defined (st : irqefd_state) (op : irqefd_op)
    (h : irqefd_proper_call st op = true) : ∃ st', irqefd_apply st op = some st' := by
  cases op with
  | register kzalloc d =>
    refine Option.isSome_iff_exists.mp ?_
    by_cases hk : kzalloc (ctx_bytes (st.mem d).num_events) = true
    · have hd : d ∉ st.list := by simpa [irqefd_proper_call, hk] using h
      simp [irqefd_apply, irqefd_register_device, hk, hd]
    · simp [irqefd_apply, irqefd_register_device, hk]
  | unregister d =>
    have hd : d ∈ st.list := by simpa [irqefd_proper_call] using h
    refine Option.isSome_iff_exists.mp ?_
    simp [irqefd_apply, irqefd_unregister_device, hd]
  | ioctl k cmd argp =>
    simp only [irqefd_proper_call, Option.isSome_iff_exists] at h
    obtain ⟨r, hr⟩ := h
    exact ⟨r.st, by simp [irqefd_apply, hr]⟩

theorem first_preserved_run (b : Nat) (ops : List irqefd_op) :
    ∀ (st : irqefd_state), first_with_inode st b → irqefd_proper st ops = true →
      irqefd_keeps b st ops = true →
      ∃ st', irqefd_run st ops = some st' ∧ first_with_inode st' b := by
  induction ops with
  | nil =>
    intro st hinv _ _
    exact ⟨st, rfl, hinv⟩
  | cons op ops ih =>
    intro st hinv hproper hkeep
    simp only [irqefd_proper, Bool.and_eq_true] at hproper
    obtain ⟨st1, hstep⟩ := proper_call_defined st op hproper.1
    have hp := hproper.2
    simp only [hstep] at hp
    simp only [irqefd_keeps, hstep, Bool.and_eq_true, Bool.not_eq_true'] at hkeep
    obtain ⟨st', hrun, hfirst⟩ :=
      ih st1 (first_preserved st st1 b op hinv hkeep.1 hstep) hp hkeep.2
    exact ⟨st', by simp [irqefd_run, hstep, hrun], hfirst⟩

/-- C7 (amended): start in any registry state (a proper list), register a
devdata `b` that is not linked, successfully, and then make any sequence of
calls (register, unregister, control requests) in which every registration
whose allocation succeeds is of a devdata that is not linked at that moment,
every unregistration is of a devdata that is linked at that moment, no control
request indexes `ctx` outside the slot array, `b` is not unregistered, and no
devdata with the inode of `b` is registered successfully.  Then the whole sequence has a defined
result, and in the state reached the lookup of the inode of `b` returns `b`
itself.  With the empty sequence: right after the successful registration of
`b` the lookup of its inode returns `b`. -/
theorem C7_find_returns_registered (kzalloc : Nat → Bool) (st0 stb : irqefd_state) (b : Nat)
    (ops : List irqefd_op)
    (hreg : irqefd_register_device kzalloc st0 b = some (0, stb))
    (hproper : irqefd_proper stb ops = true)
    (hkeep : irqefd_keeps b stb ops = true) :
    b ∉ st0.list ∧
    irqefd_find stb (stb.mem b).inode = some b ∧
    ∃ st, irqefd_run stb ops = some st ∧ irqefd_find st (st.mem b).inode = some b := by
  have hfirst := first_after_register kzalloc st0 stb b hreg
  have hfresh : b ∉ st0.list := by
    intro hb
    by_cases hk : kzalloc (ctx_bytes (st0.mem b).num_events) = true <;>
      simp [irqefd_register_device, hk, hb] at hreg
  obtain ⟨st, hrun, hst⟩ := first_preserved_run b ops stb hfirst hproper hkeep
  exact ⟨hfresh, find_of_first stb b hfirst, st, hrun, find_of_first st b hst⟩

/-- C7 (counterexample): register the struct at address 100 and then the
struct at address 200, both with inode 7 and both successfully.  The first one
is still linked, yet the lookup of its inode returns the second one. -/
theorem C7_duplicate_inode_shadows :
    irqefd_register_device (fun _ => true) (irqefd_init mem0) 100 = some (0, st1) ∧
    irqefd_register_device (fun _ => true) st1 200 = some (0, st2) ∧
    100 ∈ st2.list ∧ (st2.mem 100).inode = 7 ∧
    irqefd_find st2 (st2.mem 100).inode = some 200 ∧
    irqefd_find st2 (st2.mem 100).inode ≠ some 100 :=
  ⟨rfl, rfl, by decide, rfl, rfl, by decide⟩

/-! ## C8: Unregister -/

theorem distinct_nodup (st : irqefd_state) (hd : distinct_inodes st) : st.list.Nodup := by
  unfold distinct_inodes at hd
  refine List.Pairwise.imp ?_ hd
  intro a c hne hac
  exact hne (by rw [hac])

theorem first_of_distinct (st : irqefd_state) (c : Nat) (hd : distinct_inodes st)
    (hc : c ∈ st.list) : first_with_inode st c := by
  obtain ⟨l1, l2, hl⟩ := List.append_of_mem hc
  refine ⟨l1, l2, hl, ?_⟩
  unfold distinct_inodes at hd
  rw [hl, List.pairwise_append] at hd
  intro a ha
  exact hd.2.2 a ha c (List.mem_cons_self c l2)

theorem distinct_after_unregister (st : irqefd_state) (b : Nat) (r : Int × irqefd_state)
    (hd : distinct_inodes st) (h : irqefd_unregister_device st b = some r) :
    distinct_inodes r.2 := by
  obtain ⟨_, _, hlist, hin, _⟩ := unregister_some st b r h
  unfold distinct_inodes at hd ⊢
  rw [hlist]
  refine List.Pairwise.imp ?_ (List.Pairwise.sublist (List.erase_sublist b st.list) hd)
  intro a c hne
  rw [hin a, hin c]
  exact hne

theorem ioctl_not_found (k : irqefd_kernel) (st : irqefd_state) (cmd : Nat)
    (argp : irqefd_ioctl_arg) (ino : Nat)
    (hcmd : cmd = ATTACH_EVENT ∨ cmd = DETACH_EVENT ∨ cmd = GET_NUM_EVENTS)
    (hfget : k.fget argp.dfd = some ino) (hfind : irqefd_find st ino = none) :
    irqefd_ioctl k st cmd argp =
      some { ret := -1, st := st, out := none, err := some .device_not_registered,
             converted := [], released := [] } := by
  rcases hcmd with hc | hc | hc <;> subst hc <;>
    simp [irqefd_ioctl, irqefd_fail, hfget, hfind, ATTACH_EVENT, DETACH_EVENT, GET_NUM_EVENTS]

/-- C8: in a state whose linked bindings have pairwise distinct inodes,
unregistering a linked binding `b` returns 0 and leaves a state in which the
lookup of the inode of `b` finds nothing, so that Attach, Detach and
QueryEventCount addressed to that inode return -1 on the "device not
registered" path and change nothing; every other linked binding is still
returned by the lookup of its inode, and its devdata (slots included) is
untouched. -/
theorem C8_unregister (st : irqefd_state) (b : Nat) (hd : distinct_inodes st)
    (hb : b ∈ st.list) :
    ∃ st', irqefd_unregister_device st b = some (0, st') ∧
      irqefd_find st' (st.mem b).inode = none ∧
      (∀ (k : irqefd_kernel) (cmd : Nat) (argp : irqefd_ioctl_arg),
        k.fget argp.dfd = some (st.mem b).inode →
        (cmd = ATTACH_EVENT ∨ cmd = DETACH_EVENT ∨ cmd = GET_NUM_EVENTS) →
        irqefd_ioctl k st' cmd argp =
          some { ret := -1, st := st', out := none, err := some .device_not_registered,
                 converted := [], released := [] }) ∧
      (∀ c, c ∈ st.list → c ≠ b →
        irqefd_find st' (st.mem c).inode = some c ∧ st'.mem c = st.mem c) := by
  have hsome : ∃ r, irqefd_unregister_device st b = some r := by
    simp [irqefd_unregister_device, hb]
  obtain ⟨r, hr⟩ := hsome
  obtain ⟨_, hret, hlist, hin, hmem⟩ := unregister_some st b r hr
  have hd' := distinct_after_unregister st b r hd hr
  have hnd := distinct_nodup st hd
  have hnone : irqefd_find r.2 (st.mem b).inode = none := by
    unfold irqefd_find
    rw [List.find?_eq_none]
    intro x hx
    rw [hlist, List.Nodup.mem_erase_iff hnd] at hx
    have hne : (st.mem x).inode ≠ (st.mem b).inode :=
      List.Pairwise.forall (fun _ _ h => Ne.symm h) hd hx.2 hb hx.1
    simpa [hin x] using hne
  refine ⟨r.2, ?_, hnone, ?_, ?_⟩
  · rw [hr, ← hret]
  · intro k cmd argp hfget hcmd
    exact ioctl_not_found k r.2 cmd argp _ hcmd hfget hnone
  · intro c hc hcb
    have hc' : c ∈ r.2.list := by
      rw [hlist]
      exact (List.mem_erase_of_ne hcb).mpr hc
    have hf := find_of_first r.2 c (first_of_distinct r.2 c hd' hc')
    rw [hin c] at hf
    exact ⟨hf, hmem c hcb⟩

/-! ## Instances of the theorems on concrete states -/

theorem C3_attach_on_bound_slot_witness :
    irqefd_find st1_bound 7 = some 100 ∧
    (st1_bound.mem 100).ctx = some [0, 0, 4101, 0] ∧
    irqefd_ioctl k_ok st1_bound ATTACH_EVENT { dfd := 3, efd := 6, eidx := 2, nevts := 0 } =
      some { ret := -1, st := st1_bound, out := none, err := some .already_registered,
             converted := [], released := [] } ∧
    ctx_read (st1_bound.mem 100) 2 = some 4101 :=
  ⟨rfl, rfl,
   C3_attach_on_bound_slot k_ok st1_bound { dfd := 3, efd := 6, eidx := 2, nevts := 0 }
     7 100 [0, 0, 4101, 0] 4101 rfl rfl rfl (by decide) rfl (by decide)⟩

theorem C4_detach_on_empty_slot_witness :
    irqefd_find st1 7 = some 100 ∧
    (st1.mem 100).ctx = some [0, 0, 0, 0] ∧
    irqefd_ioctl k_ok st1 DETACH_EVENT { dfd := 3, efd := 0, eidx := 1, nevts := 0 } =
      some { ret := -1, st := st1, out := none, err := some .event_not_set,
             converted := [], released := [] } :=
  ⟨rfl, rfl,
   C4_detach_on_empty_slot k_ok st1 { dfd := 3, efd := 0, eidx := 1, nevts := 0 }
     7 100 [0, 0, 0, 0] rfl rfl rfl (by decide) rfl⟩

theorem C5_attach_then_detach_witness :
    ∃ r1 r2,
      irqefd_ioctl k_ok st1 ATTACH_EVENT { dfd := 3, efd := 5, eidx := 2, nevts := 0 } = some r1 ∧
      r1.err = none ∧ r1.ret = 0 ∧
      ctx_read (r1.st.mem 100) 2 = some 4101 ∧
      irqefd_ioctl k_ok r1.st DETACH_EVENT { dfd := 3, efd := 0, eidx := 2, nevts := 0 } = some r2 ∧
      r2.err = none ∧ r2.ret = 0 ∧
      r2.released = [4101] ∧
      ctx_read (r2.st.mem 100) 2 = some 0 ∧
      r2.st = st1 :=
  C5_attach_then_detach k_ok k_ok st1 { dfd := 3, efd := 5, eidx := 2, nevts := 0 }
    { dfd := 3, efd := 0, eidx := 2, nevts := 0 } 7 100 [0, 0, 0, 0] 4101
    rfl rfl rfl rfl (by decide) rfl rfl rfl

theorem C6_negative_result_leaves_state_witness :
    irqefd_ioctl k_ok st1_bound ATTACH_EVENT { dfd := 3, efd := 6, eidx := 2, nevts := 0 } =
      some { ret := -1, st := st1_bound, out := none, err := some .already_registered,
             converted := [], released := [] } ∧
    ((-1 : Int) < 0) ∧
    (st1_bound = st1_bound ∧ ([] : List Int) = [] ∧ ([] : List Nat) = [] ∧
      (none : Option irqefd_ioctl_arg) = none ∧ (-1 : Int) = -1) :=
  ⟨rfl, by decide,
   C6_negative_result_leaves_state k_ok st1_bound ATTACH_EVENT
     { dfd := 3, efd := 6, eidx := 2, nevts := 0 }
     { ret := -1, st := st1_bound, out := none, err := some .already_registered,
       converted := [], released := [] } rfl (by decide)⟩

theorem C7_find_returns_registered_witness :
    irqefd_register_device (fun _ => true) (irqefd_init mem0) 100 = some (0, st1) ∧
    irqefd_proper st1 ops_demo = true ∧
    irqefd_keeps 100 st1 ops_demo = true ∧
    irqefd_run st1 ops_demo = some st_demo ∧
    st_demo.list = [100] ∧
    (100 ∉ (irqefd_init mem0).list ∧
     irqefd_find st1 (st1.mem 100).inode = some 100 ∧
     ∃ st, irqefd_run st1 ops_demo = some st ∧ irqefd_find st (st.mem 100).inode = some 100) :=
  ⟨rfl, rfl, rfl, rfl, rfl,
   C7_find_returns_registered (fun _ => true) (irqefd_init mem0) st1 100 ops_demo rfl rfl rfl⟩

theorem C8_unregister_witness :
    distinct_inodes st3 ∧ 300 ∈ st3.list ∧
    ∃ st', irqefd_unregister_device st3 300 = some (0, st') ∧
      irqefd_find st' (st3.mem 300).inode = none ∧
      (∀ (k : irqefd_kernel) (cmd : Nat) (argp : irqefd_ioctl_arg),
        k.fget argp.dfd = some (st3.mem 300).inode →
        (cmd = ATTACH_EVENT ∨ cmd = DETACH_EVENT ∨ cmd = GET_NUM_EVENTS) →
        irqefd_ioctl k st' cmd argp =
          some { ret := -1, st := st', out := none, err := some .device_not_registered,
                 converted := [], released := [] }) ∧
      (∀ c, c ∈ st3.list → c ≠ 300 →
        irqefd_find st' (st3.mem c).inode = some c ∧ st'.mem c = st3.mem c) :=
  ⟨by unfold distinct_inodes; decide, by decide,
   C8_unregister st3 300 (by unfold distinct_inodes; decide) (by decide)⟩

theorem C9_query_event_count_witness :
    k_ok.fget 3 = some 7 ∧ irqefd_find st1 7 = some 100 ∧
    irqefd_ioctl k_ok st1 GET_NUM_EVENTS { dfd := 3, efd := 11, eidx := 12, nevts := 13 } =
      some { ret := 0
             st := st1
             out := some { dfd := 3, efd := 11, eidx := 12, nevts := 4 }
             err := none
             converted := []
             released := [] } :=
  ⟨rfl, rfl,
   C9_query_event_count k_ok st1 { dfd := 3, efd := 11, eidx := 12, nevts := 13 } 7 100 rfl rfl⟩

theorem C10_frame_of_success_witness :
    irqefd_ioctl k_ok st1 ATTACH_EVENT { dfd := 3, efd := 5, eidx := 2, nevts := 0 } =
      some { ret := 0, st := st1_bound, out := some { dfd := 3, efd := 5, eidx := 2, nevts := 0 },
             err := none, converted := [5], released := [] } ∧
    st1_bound.list = st1.list ∧
    (∀ a, a ≠ 100 → st1_bound.mem a = st1.mem a) ∧
    (st1_bound.mem 100).inode = (st1.mem 100).inode ∧
    (st1_bound.mem 100).num_events = (st1.mem 100).num_events :=
  have h := C10_frame_of_success k_ok st1 ATTACH_EVENT
    { dfd := 3, efd := 5, eidx := 2, nevts := 0 }
    { ret := 0, st := st1_bound, out := some { dfd := 3, efd := 5, eidx := 2, nevts := 0 },
      err := none, converted := [5], released := [] }
    7 100 [0, 0, 0, 0] (Or.inl rfl) rfl rfl rfl rfl rfl
  ⟨rfl, h.2.1, h.2.2.1, h.2.2.2.1, h.2.2.2.2.1⟩

end IrqEventfd
